import Mathlib

/-
Shallow embedding of the recharts categorical-chart layout and interaction
engine, translated from:
  src/src/chart/generateCategoricalChart.tsx
  src/unnamed/part_000  (ReactUtils / CartesianUtils: validateWidthHeight,
                         formatAxisMap, ScaleHelper, ...)
Helper functions living in modules that are not part of the provided sources
(util/DataUtils, util/ChartUtils, util/PolarUtils, ...) are modelled from the
specification; each such definition carries a doc comment starting with
"Modelled from the spec:".
Numbers are embedded as rationals; JavaScript `null`/`undefined` values are
embedded with `Option` or with the dedicated `DValue.null` constructor.
-/

namespace Recharts

/-- A JavaScript data value as the chart engine sees it: a (finite) number, a
piece of text, or a missing value (`null`/`undefined`). -/
inductive DValue where
  | num (q : ℚ)
  | str (s : String)
  | null
deriving DecidableEq

/-- JS `isNil`: true exactly for the missing value. -/
def isNil : DValue → Bool
  | .null => true
  | _ => false

/-- A data record: an association list from field names to values. -/
def Entry : Type := List (String × DValue)

instance : DecidableEq Entry := inferInstanceAs (DecidableEq (List (String × DValue)))

/-- Read a field of a record; absent fields read as `null` (JS `undefined`). -/
def Entry.getField (e : Entry) (k : String) : DValue :=
  match e.find? (fun p => decide (p.1 = k)) with
  | some p => p.2
  | none => .null

/-- A data-key accessor: a literal field name or a derived/computed key (a
function of the whole record), both supported by the tooltip lookup. -/
inductive DataKey where
  | field (k : String)
  | fn (f : Entry → DValue)

/-- Evaluate a data key on a record (JS `getValueByDataKey`). -/
def applyDataKey : DataKey → Entry → DValue
  | .field k, e => e.getField k
  | .fn f, e => f e

/-- Modelled from the spec: `hasDuplicate` from `util/DataUtils` (not under
`src/`): whether a list of category values contains a repeated value. -/
def hasDuplicate : List DValue → Bool
  | [] => false
  | v :: vs => decide (v ∈ vs) || hasDuplicate vs

/-- Modelled from the spec: `findEntryInArray` from `util/DataUtils` (not under
`src/`): the first record whose (possibly computed) data-key value equals the
specified value, used for the exact category-key tooltip lookup. -/
def findEntryInArray (ary : List Entry) (specifiedKey : DataKey)
    (specifiedValue : DValue) : Option Entry :=
  ary.find? (fun e => decide (applyDataKey specifiedKey e = specifiedValue))

/-- The `width`/`height` props of a chart element; `none` embeds a value that
is not a (finite) number, which JS `isNumber` rejects. -/
structure SizeProps where
  width : Option ℚ
  height : Option ℚ
deriving DecidableEq

/-- From `src/unnamed/part_000` (`validateWidthHeight`): true iff the element
exists and its `width` and `height` props are numbers greater than 0. -/
def validateWidthHeight : Option SizeProps → Bool
  | none => false
  | some p =>
    match p.width, p.height with
    | some w, some h => decide (0 < w) && decide (0 < h)
    | _, _ => false

/-- From `src/unnamed/part_000` (`ScaleHelper.isInRange`): containment of a
value between the first and last endpoint of the scale's pixel range, in
either order.  On an empty range every JS comparison with `undefined` is
false, so the result is false. -/
def ScaleHelper.isInRange (rangeEndpoints : List ℚ) (value : ℚ) : Bool :=
  match rangeEndpoints with
  | [] => false
  | first :: rest =>
    let last := rest.getLastD first
    if first ≤ last then decide (first ≤ value) && decide (value ≤ last)
    else decide (last ≤ value) && decide (value ≤ first)

/-- The `type` prop of an axis: `'number'` (continuous) or `'category'`. -/
inductive AxisKind where
  | number
  | category
deriving DecidableEq

/-- The chart-level `stackOffset` prop. -/
inductive StackOffsetKind where
  | expand
  | none
  | wiggle
  | silhouette
  | sign
  | positive
deriving DecidableEq

/-- One slot of a user-specified axis `domain` prop: the literal string
`'auto'` or a concrete value (numbers drive the numeric merge; other values
only participate in category domains). -/
inductive DomainSpecItem where
  | auto
  | val (v : DValue)
deriving DecidableEq

/-- The raw value carried by a domain slot (`'auto'` is the literal string). -/
def DomainSpecItem.toDValue : DomainSpecItem → DValue
  | .auto => .str "auto"
  | .val v => v

/-- The props of one graphical item (series) that this embedding uses: its
optional private data slice, its data-key accessor, its `hide` flag and a
name used for tooltip entries.  The axis-id matching of the source is
performed by the caller, which passes only the items attached to the axis at
hand. -/
structure GraphicalItemProps where
  data : Option (List Entry)
  dataKey : DataKey
  hide : Bool
  itemKey : String

/-- JS `array.slice(s, e + 1)` for the in-range indices used by the engine
(negative arguments, which JS counts from the end, do not occur in the
embedded call sites and are truncated to 0 here). -/
def sliceList (l : List Entry) (s e : ℤ) : List Entry :=
  (l.drop s.toNat).take (e + 1 - s).toNat

/-- From `generateCategoricalChart.tsx` (`getDisplayedData`, lines 182–208):
the displayed data slice — the concatenated per-series data when any series
carries its own non-empty data, else the chart data sliced by the brush
window. -/
def getDisplayedData (data : List Entry) (graphicalItems : List GraphicalItemProps)
    (dataStartIndex dataEndIndex : ℤ) : List Entry :=
  let itemsData := graphicalItems.foldl (fun result child =>
    match child.data with
    | some itemData => if itemData.length ≠ 0 then result ++ itemData else result
    | Option.none => result) []
  if 0 < itemsData.length then itemsData
  else if data.length ≠ 0 then sliceList data dataStartIndex dataEndIndex
  else []

/-- From `generateCategoricalChart.tsx` (`getDefaultDomainByAxisType`,
line 210): numeric axes default to the partial domain `[0, 'auto']`. -/
def getDefaultDomainByAxisType (kind : AxisKind) : Option (List DomainSpecItem) :=
  if kind = .number then some [.val (.num 0), .auto] else Option.none

/-- The values of a data key over the displayed records. -/
def extractValues (data : List Entry) (key : DataKey) : List DValue :=
  data.map (applyDataKey key)

/-- The numeric values among a list of extracted values. -/
def numericValues (vs : List DValue) : List ℚ :=
  vs.filterMap (fun v => match v with | .num q => some q | _ => Option.none)

/-- The numeric `[min, max]` pair of a list of values (the empty case, which
the source represents with infinities, is embedded as `[0, 0]`; no theorem
below depends on it). -/
def minMaxDomain (vs : List DValue) : List DValue :=
  match numericValues vs with
  | [] => [.num 0, .num 0]
  | q :: qs => [.num (qs.foldl min q), .num (qs.foldl max q)]

/-- Modelled from the spec: `getDomainOfDataByKey` from `util/ChartUtils` (not
under `src/`): the domain of a data-key extraction over the displayed data —
the numeric `[min, max]` pair for a `number` axis, the list of extracted
values for a `category` axis. -/
def getDomainOfDataByKey (data : List Entry) (key : DataKey) (kind : AxisKind) :
    List DValue :=
  match kind with
  | .number => minMaxDomain (extractValues data key)
  | .category => extractValues data key

/-- Per member series of a stack group: the accumulated `[base, top]` extents,
one pair per category index. -/
def StackSeries : Type := List (ℚ × ℚ)

/-- Modelled from the spec: `getDomainOfStackGroups` from `util/ChartUtils`
(not under `src/`): the union of the per-category accumulated `[base, top]`
extents across the stack's member series, restricted to the windowed
indices. -/
def getDomainOfStackGroups (groups : List StackSeries) (dataStartIndex dataEndIndex : ℤ) :
    List DValue :=
  let windowed := groups.foldl
    (fun acc s => acc ++ ((s.drop dataStartIndex.toNat).take (dataEndIndex + 1 - dataStartIndex).toNat)) []
  match windowed with
  | [] => [.num 0, .num 0]
  | p :: ps =>
    [.num (ps.foldl (fun m q => min m (min q.1 q.2)) (min p.1 p.2)),
     .num (ps.foldl (fun m q => max m (max q.1 q.2)) (max p.1 p.2))]

/-- Modelled from the spec: `getDomainOfItemsWithSameAxis` from
`util/ChartUtils` (not under `src/`): the numeric min/max across the data
keys of the given (already axis-filtered) series over the displayed data. -/
def getDomainOfItemsWithSameAxis (displayedData : List Entry)
    (items : List GraphicalItemProps) : List DValue :=
  minMaxDomain (items.foldl (fun acc it => acc ++ extractValues displayedData it.dataKey) [])

/-- The numeric content of a domain slot (`domain[i]` fed to `Math.min` /
`Math.max`); a missing or non-numeric slot is embedded as 0 (no theorem below
exercises that case). -/
def numSlot (domain : List DValue) (i : ℕ) : ℚ :=
  match domain.get? i with
  | some (.num q) => q
  | _ => 0

/-- Modelled from the spec: `parseSpecifiedDomain` from `util/ChartUtils` (not
under `src/`): merge a user-specified numeric domain with a computed data
domain.  An `auto` slot keeps the computed bound; a numeric slot is taken
verbatim when data overflow is allowed and is otherwise merged so that the
data is never cut off (min for the lower bound, max for the upper bound);
other shapes leave the data domain unchanged. -/
def parseSpecifiedDomain (specified : Option (List DomainSpecItem))
    (dataDomain : List DValue) (allowDataOverflow : Bool) : List DValue :=
  match specified with
  | Option.none => dataDomain
  | some [s0, s1] =>
    let lo := match s0 with
      | .val (.num q) => if allowDataOverflow then q else min q (numSlot dataDomain 0)
      | _ => numSlot dataDomain 0
    let hi := match s1 with
      | .val (.num q) => if allowDataOverflow then q else max q (numSlot dataDomain 1)
      | _ => numSlot dataDomain 1
    [.num lo, .num hi]
  | some _ => dataDomain

/-- Modelled from the spec: `detectReferenceElementsDomain` from
`util/DetectReferenceElementsDomain` (not under `src/`): extend a numeric
domain so that it includes every reference annotation marked always-visible
(`refValues`); with no such annotations the domain is unchanged. -/
def detectReferenceElementsDomain (refValues : List ℚ) (domain : List DValue) :
    List DValue :=
  match refValues with
  | [] => domain
  | _ =>
    [.num (refValues.foldl min (numSlot domain 0)),
     .num (refValues.foldl max (numSlot domain 1))]

/-- Modelled from the spec: `parseDomainOfCategoryAxis` from `util/ChartUtils`
(not under `src/`): a non-empty user-specified category domain replaces the
calculated one; otherwise the calculated domain is kept. -/
def parseDomainOfCategoryAxis (specifiedDomain : Option (List DomainSpecItem))
    (calculatedDomain : List DValue) : List DValue :=
  match specifiedDomain with
  | Option.none => calculatedDomain
  | some [] => calculatedDomain
  | some spec0 => spec0.map DomainSpecItem.toDValue

/-- Modelled from the spec: `isDomainSpecifiedByUser` from
`util/isDomainSpecifiedByUser` (not under `src/`): the user-supplied domain
is adopted directly (the performance short-circuit) only for a numeric axis
that allows data overflow and whose `domain` prop gives both endpoints as
concrete numbers. -/
def isDomainSpecifiedByUser (domainProp : Option (List DomainSpecItem))
    (allowDataOverflow : Bool) (kind : AxisKind) : Bool :=
  allowDataOverflow && decide (kind = .number) &&
    (match domainProp with
     | some [.val (.num _), .val (.num _)] => true
     | _ => false)

/-- `lodash.range(0, n)`: the synthetic sequential index domain `[0, n)`. -/
def rangeList (n : ℕ) : List DValue :=
  (List.range n).map (fun i => .num i)

/-- The first-occurrence de-duplication reduce of `getAxisMapByAxes`
(lines 404–408). -/
def dedupeKeepFirst (l : List DValue) : List DValue :=
  l.foldl (fun finalDomain entry =>
    if entry ∈ finalDomain then finalDomain else finalDomain ++ [entry]) []

/-- The de-duplication reduce of `getAxisMapByAxes` for a category-typed axis
that is not the layout's categorical axis (lines 413–417): empty-string and
nil entries are dropped as well. -/
def dedupeKeepFirstDropEmpty (l : List DValue) : List DValue :=
  l.foldl (fun finalDomain entry =>
    if entry ∈ finalDomain ∨ entry = .str "" ∨ isNil entry = true then finalDomain
    else finalDomain ++ [entry]) []

/-- The axis props consumed by the per-axis domain resolution. `scaleAuto`
records whether the `scale` prop is the default `'auto'`. -/
structure AxisProps where
  type : AxisKind
  dataKey : Option DataKey
  allowDataOverflow : Bool
  allowDuplicatedCategory : Bool
  scaleAuto : Bool
  domainProp : Option (List DomainSpecItem)
  includeHidden : Bool

/-- The domain-related outputs of `getAxisMapByAxes` for one axis. -/
structure ResolvedAxis where
  domain : List DValue
  duplicateDomain : Option (List DValue)
  categoricalDomain : Option (List DValue)
deriving DecidableEq

/-- The post-processing applied after the data-derived domain in
`getAxisMapByAxes` (lines 469–483): a numeric axis is extended by
always-visible reference elements and merged with the (possibly defaulted)
`domain` prop; a category axis adopts a user domain that covers every
calculated entry. -/
def postProcessDomain (kind : AxisKind) (allowDataOverflow : Bool)
    (childDomain : Option (List DomainSpecItem)) (refValues : List ℚ)
    (domain : List DValue) : List DValue :=
  if kind = .number then
    let d1 := detectReferenceElementsDomain refValues domain
    match childDomain with
    | some cd => parseSpecifiedDomain (some cd) d1 allowDataOverflow
    | Option.none => d1
  else
    match childDomain with
    | some cd =>
      let axisDomain := cd.map DomainSpecItem.toDValue
      if domain.all (fun entry => decide (entry ∈ axisDomain)) then axisDomain else domain
    | Option.none => domain

/-- From `generateCategoricalChart.tsx` (`getAxisMapByAxes`, body of the
per-axis reduce, lines 362–498): resolution of one axis's domain from the
displayed data, the stack groups and the axis props.  `refValues` stands for
the always-visible reference elements read by the
`detectReferenceElementsDomain` call and `errorBarsDomain` for the result of
the `parseErrorBarsOfAxis` call (both functions live outside `src/` and are
modelled from the spec). -/
def resolveAxisDomain (ax : AxisProps) (isCategorical : Bool)
    (displayedData : List Entry)
    (hasStack : Bool) (stackOffset : StackOffsetKind) (stackGroups : List StackSeries)
    (dataStartIndex dataEndIndex : ℤ)
    (refValues : List ℚ) (errorBarsDomain : Option (List DValue))
    (itemsForAxis : List GraphicalItemProps) : ResolvedAxis :=
  let len := displayedData.length
  if isDomainSpecifiedByUser ax.domainProp ax.allowDataOverflow ax.type then
    { domain := parseSpecifiedDomain ax.domainProp [] ax.allowDataOverflow,
      duplicateDomain := Option.none,
      categoricalDomain :=
        if isCategorical ∧ (ax.type = .number ∨ ax.scaleAuto = false) then
          some (extractValues displayedData (ax.dataKey.getD (.field "")))
        else Option.none }
  else
    let childDomain := match ax.domainProp with
      | some d => some d
      | Option.none => getDefaultDomainByAxisType ax.type
    match ax.dataKey with
    | some key =>
      let domain0 := getDomainOfDataByKey displayedData key ax.type
      let stepped : List DValue × Option (List DValue) :=
        if ax.type = .category ∧ isCategorical = true then
          if ax.allowDuplicatedCategory = true ∧ hasDuplicate domain0 = true then
            (rangeList len, some domain0)
          else if ax.allowDuplicatedCategory = false then
            (dedupeKeepFirst (parseDomainOfCategoryAxis childDomain domain0), Option.none)
          else (domain0, Option.none)
        else if ax.type = .category then
          if ax.allowDuplicatedCategory = false then
            (dedupeKeepFirstDropEmpty (parseDomainOfCategoryAxis childDomain domain0),
             Option.none)
          else
            (domain0.filter (fun entry => !(decide (entry = .str "") || isNil entry)),
             Option.none)
        else
          ((errorBarsDomain.getD domain0), Option.none)
      { domain := postProcessDomain ax.type ax.allowDataOverflow childDomain refValues stepped.1,
        duplicateDomain := stepped.2,
        categoricalDomain :=
          if isCategorical ∧ (ax.type = .number ∨ ax.scaleAuto = false) then
            some (getDomainOfDataByKey displayedData key .category)
          else Option.none }
    | Option.none =>
      let domain0 :=
        if isCategorical = true then rangeList len
        else if hasStack = true ∧ ax.type = .number then
          if stackOffset = .expand then [.num 0, .num 1]
          else getDomainOfStackGroups stackGroups dataStartIndex dataEndIndex
        else
          getDomainOfItemsWithSameAxis displayedData
            (itemsForAxis.filter (fun it => ax.includeHidden || !it.hide))
      { domain := postProcessDomain ax.type ax.allowDataOverflow childDomain refValues domain0,
        duplicateDomain := Option.none,
        categoricalDomain := Option.none }

/-- The chart layout orientation. -/
inductive LayoutKind where
  | horizontal
  | vertical
  | centric
  | radial
deriving DecidableEq

/-- One tick of the tooltip axis: its domain value, its pixel coordinate and
its index into the (unsorted) tooltip tick list. -/
structure TickItem where
  value : DValue
  coordinate : ℚ
  index : ℕ
deriving DecidableEq

/-- The `rangeObj` produced by the containment test: the scaled pointer
coordinates, plus the polar components for polar layouts. -/
structure RangeObj where
  x : ℚ
  y : ℚ
  angle : ℚ
  radius : ℚ
  cx : ℚ
  cy : ℚ
deriving DecidableEq

/-- A pixel point. -/
structure ChartCoordinate where
  x : ℚ
  y : ℚ
deriving DecidableEq

/-- From `generateCategoricalChart.tsx` (line 109). -/
def originCoordinate : ChartCoordinate := { x := 0, y := 0 }

/-- From `generateCategoricalChart.tsx` (`calculateTooltipPos`, lines
127–139): project the pointer onto the tooltip axis's directional
dimension. -/
def calculateTooltipPos (rangeObj : RangeObj) (layout : LayoutKind) : ℚ :=
  match layout with
  | .horizontal => rangeObj.x
  | .vertical => rangeObj.y
  | .centric => rangeObj.angle
  | .radial => rangeObj.radius

/-- The nearest tick to `pos`, ties resolving to the earlier tick. -/
def nearestTick (pos : ℚ) (t : TickItem) (ts : List TickItem) : TickItem :=
  ts.foldl (fun best c => if |c.coordinate - pos| < |best.coordinate - pos| then c else best) t

/-- Modelled from the spec: `calculateActiveTickIndex` from `util/ChartUtils`
(not under `src/`): the index of the nearest tick to the projected pointer
position among the coordinate-ordered ticks (ties resolve to the first match
at or before the midpoint, i.e. the earlier tick); `-1` when there are no
ticks. -/
def calculateActiveTickIndex (pos : ℚ) (orderedTicks : List TickItem) : ℤ :=
  match orderedTicks with
  | [] => -1
  | t :: ts => ((nearestTick pos t ts).index : ℤ)

/-- From `generateCategoricalChart.tsx` (`getActiveCoordinate`, lines
141–180), restricted to the cartesian branches; the polar branches go through
the trigonometric `polarToCartesian` conversion and are embedded as the pole
`(cx, cy)` — no theorem below reads them. -/
def getActiveCoordinate (layout : LayoutKind) (tooltipTicks : List TickItem)
    (activeIndex : ℤ) (rangeObj : RangeObj) : ChartCoordinate :=
  match tooltipTicks.find? (fun tick => decide ((tick.index : ℤ) = activeIndex)) with
  | some entry =>
    match layout with
    | .horizontal => { x := entry.coordinate, y := rangeObj.y }
    | .vertical => { x := rangeObj.x, y := entry.coordinate }
    | _ => { x := rangeObj.cx, y := rangeObj.cy }
  | Option.none => originCoordinate

/-- The tooltip-axis props read by the payload lookup. -/
structure TooltipAxisProps where
  dataKey : Option DataKey
  allowDuplicatedCategory : Bool

/-- One entry of the tooltip payload. -/
structure TooltipItem where
  name : String
  value : DValue
  payload : Entry
deriving DecidableEq

/-- Modelled from the spec: `getTooltipItem` from `util/ChartUtils` (not under
`src/`): the tooltip payload entry for one series and one datum — the series
name, the series' value read from the datum, and the datum itself. -/
def getTooltipItem (child : GraphicalItemProps) (payload : Entry) : TooltipItem :=
  { name := child.itemKey, value := applyDataKey child.dataKey payload, payload := payload }

/-- From `generateCategoricalChart.tsx` (`getTooltipContent`, lines 241–261):
the per-series datum lookup — the series data (its own slice or the chart
data), windowed by the brush when the active index is inside the window, then
an exact category-key match when the tooltip axis has a data key and forbids
duplicated categories, else positional indexing with a fallback to the
displayed data. -/
def tooltipPayloadFor (chartData displayedData : List Entry)
    (tooltipAxis : TooltipAxisProps) (dataStartIndex dataEndIndex activeIndex : ℤ)
    (activeLabel : DValue) (child : GraphicalItemProps) : Option Entry :=
  let data0 := child.data.getD chartData
  let data1 :=
    if dataStartIndex + dataEndIndex ≠ 0 ∧ activeIndex ≤ dataEndIndex - dataStartIndex then
      sliceList data0 dataStartIndex dataEndIndex
    else data0
  match tooltipAxis.dataKey, tooltipAxis.allowDuplicatedCategory with
  | some key, false => findEntryInArray data1 key activeLabel
  | _, _ =>
    match data1.get? activeIndex.toNat with
    | some p => some p
    | Option.none => displayedData.get? activeIndex.toNat

/-- From `generateCategoricalChart.tsx` (`getTooltipContent`, lines 222–269):
the tooltip payload for an active index — `none` (JS `null`) for an invalid
index or no series, else one entry per series whose datum lookup succeeds
(series without a matching datum are skipped by the reduce). -/
def getTooltipContent (chartData : List Entry) (graphicalItems : List GraphicalItemProps)
    (tooltipAxis : TooltipAxisProps) (dataStartIndex dataEndIndex : ℤ)
    (activeIndex : ℤ) (activeLabel : DValue) : Option (List TooltipItem) :=
  let displayedData := getDisplayedData chartData graphicalItems dataStartIndex dataEndIndex
  if activeIndex < 0 ∨ graphicalItems.length = 0 ∨ (displayedData.length : ℤ) ≤ activeIndex then
    Option.none
  else
    some (graphicalItems.foldl (fun result child =>
      match tooltipPayloadFor chartData displayedData tooltipAxis dataStartIndex dataEndIndex
          activeIndex activeLabel child with
      | Option.none => result
      | some p => result ++ [getTooltipItem child p]) [])

/-- The tooltip-state delta produced by pointer resolution. -/
structure TooltipUpdate where
  activeTooltipIndex : ℤ
  activeLabel : DValue
  activePayload : Option (List TooltipItem)
  activeCoordinate : ChartCoordinate
deriving DecidableEq

/-- From `generateCategoricalChart.tsx` (`getTooltipData`, lines 279–301):
resolve a pointer `rangeObj` to the active index, label, payload and cursor
coordinate; `none` when no tick is at or after the projected position. -/
def getTooltipData (orderedTooltipTicks tooltipTicks : List TickItem)
    (tooltipAxis : TooltipAxisProps) (graphicalItems : List GraphicalItemProps)
    (chartData : List Entry) (dataStartIndex dataEndIndex : ℤ)
    (layout : LayoutKind) (rangeObj : RangeObj) : Option TooltipUpdate :=
  let pos := calculateTooltipPos rangeObj layout
  let activeIndex := calculateActiveTickIndex pos orderedTooltipTicks
  if 0 ≤ activeIndex then
    let activeLabel := match tooltipTicks.get? activeIndex.toNat with
      | some t => t.value
      | Option.none => .null
    some { activeTooltipIndex := activeIndex,
           activeLabel := activeLabel,
           activePayload := getTooltipContent chartData graphicalItems tooltipAxis
             dataStartIndex dataEndIndex activeIndex activeLabel,
           activeCoordinate := getActiveCoordinate layout orderedTooltipTicks activeIndex rangeObj }
  else Option.none

/-- The configured chart margins (`props.margin`; JS reads each side as
`margin.side || 0`, so an absent side is embedded as 0). -/
structure Margin where
  top : ℚ
  bottom : ℚ
  left : ℚ
  right : ℚ
deriving DecidableEq

/-- One y-axis entry of the y-axis map, as read by `calculateOffset`: its
orientation (`'left'` or `'right'`), pixel width and the `mirror`/`hide`
flags. -/
structure YAxisEntry where
  orientationIsLeft : Bool
  width : ℚ
  mirror : Bool
  hide : Bool
deriving DecidableEq

/-- One x-axis entry of the x-axis map, as read by `calculateOffset`: its
orientation (`'top'` or `'bottom'`), pixel height and the `mirror`/`hide`
flags. -/
structure XAxisEntry where
  orientationIsTop : Bool
  height : ℚ
  mirror : Bool
  hide : Bool
deriving DecidableEq

/-- The four margin sides consumed so far while computing the offset. -/
structure OffsetSides where
  top : ℚ
  bottom : ℚ
  left : ℚ
  right : ℚ
deriving DecidableEq

/-- The props of a `Brush` child used by this embedding. -/
structure BrushProps where
  startIndex : Option ℤ
  endIndex : Option ℤ
  height : ℚ
deriving DecidableEq

/-- `Brush.defaultProps.height` (the `||` fallback in `calculateOffset`). -/
def brushDefaultHeight : ℚ := 40

/-- The plot-area rectangle plus consumed margins (`ChartOffset`). -/
structure ChartOffset where
  top : ℚ
  bottom : ℚ
  left : ℚ
  right : ℚ
  width : ℚ
  height : ℚ
  brushBottom : ℚ
deriving DecidableEq

/-- From `generateCategoricalChart.tsx` (`calculateOffset`, lines 749–819):
margins plus every visible non-mirrored axis size per orientation side, a
brush allowance at the bottom, an externally supplied legend adjustment
(`legendAdjust` stands for the `appendOffsetOfLegend` call, code not under
`src/`, applied only when a legend and its measured box are present), and the
final plot width/height clamped to zero. -/
def calculateOffset (margin : Margin) (xAxisMap : List XAxisEntry)
    (yAxisMap : List YAxisEntry) (brushItem : Option BrushProps)
    (legendAdjust : Option (OffsetSides → OffsetSides))
    (width height : ℚ) : ChartOffset :=
  let offsetLR := yAxisMap.foldl (fun (r : ℚ × ℚ) entry =>
      if !entry.mirror && !entry.hide then
        if entry.orientationIsLeft then (r.1 + entry.width, r.2) else (r.1, r.2 + entry.width)
      else r) (margin.left, margin.right)
  let offsetTB := xAxisMap.foldl (fun (r : ℚ × ℚ) entry =>
      if !entry.mirror && !entry.hide then
        if entry.orientationIsTop then (r.1 + entry.height, r.2) else (r.1, r.2 + entry.height)
      else r) (margin.top, margin.bottom)
  let offset0 : OffsetSides :=
    { top := offsetTB.1, bottom := offsetTB.2, left := offsetLR.1, right := offsetLR.2 }
  let brushBottom := offset0.bottom
  let offset1 := match brushItem with
    | some b =>
      { offset0 with
        bottom := offset0.bottom + (if b.height = 0 then brushDefaultHeight else b.height) }
    | Option.none => offset0
  let offset2 := match legendAdjust with
    | some f => f offset1
    | Option.none => offset1
  { top := offset2.top, bottom := offset2.bottom, left := offset2.left, right := offset2.right,
    brushBottom := brushBottom,
    width := max (width - offset2.left - offset2.right) 0,
    height := max (height - offset2.top - offset2.bottom) 0 }

/-- The angle-axis geometry consulted by the polar containment test. -/
structure SectorDef where
  innerRadius : ℚ
  outerRadius : ℚ
  startAngle : ℚ
  endAngle : ℚ
deriving DecidableEq

/-- The pointer expressed in the chart's polar coordinates. -/
structure PolarPoint where
  radius : ℚ
  angle : ℚ
deriving DecidableEq

/-- Modelled from the spec: `inRangeOfSector` from `util/PolarUtils` (not
under `src/`): whether the pointer lies within the angular/radial sector; the
trigonometric cartesian-to-polar conversion is taken as an input (the pointer
is given in polar coordinates). -/
def inRangeOfSector (p : PolarPoint) (sector : SectorDef) : Option PolarPoint :=
  if sector.innerRadius ≤ p.radius ∧ p.radius ≤ sector.outerRadius ∧
      min sector.startAngle sector.endAngle ≤ p.angle ∧
      p.angle ≤ max sector.startAngle sector.endAngle then
    some p
  else Option.none

/-- From `generateCategoricalChart.tsx` (`inRange`, lines 1445–1470): the
containment test for the (scale-corrected) pointer — the plot rectangle for
cartesian layouts, the angular/radial sector for polar layouts (`polarPointer`
carries the pointer's polar coordinates for the modelled sector test). -/
def inRange (layout : LayoutKind) (offset : ChartOffset)
    (angleAxis : Option SectorDef) (polarPointer : PolarPoint)
    (x y scale : ℚ) : Option RangeObj :=
  let scaledX := x / scale
  let scaledY := y / scale
  if layout = .horizontal ∨ layout = .vertical then
    if offset.left ≤ scaledX ∧ scaledX ≤ offset.left + offset.width ∧
        offset.top ≤ scaledY ∧ scaledY ≤ offset.top + offset.height then
      some { x := scaledX, y := scaledY, angle := 0, radius := 0, cx := 0, cy := 0 }
    else Option.none
  else
    match angleAxis with
    | some sector =>
      match inRangeOfSector polarPointer sector with
      | some pp =>
        some { x := scaledX, y := scaledY, angle := pp.angle, radius := pp.radius,
               cx := 0, cy := 0 }
      | Option.none => Option.none
    | Option.none => Option.none

/-- From `generateCategoricalChart.tsx` (`getMouseInfo`, lines 1402–1443),
restricted to the `'axis'` tooltip event type: `none` when the pointer is not
in the chart, else the chart coordinates together with the resolved tooltip
data (still `none` when no tooltip data resolves).  The DOM container offset
is already subtracted: the function takes the chart-relative coordinates. -/
def getMouseInfo (orderedTooltipTicks tooltipTicks : List TickItem)
    (tooltipAxis : TooltipAxisProps) (graphicalItems : List GraphicalItemProps)
    (chartData : List Entry) (dataStartIndex dataEndIndex : ℤ)
    (layout : LayoutKind) (offset : ChartOffset)
    (angleAxis : Option SectorDef) (polarPointer : PolarPoint)
    (chartX chartY scale : ℚ) : Option (ℚ × ℚ × TooltipUpdate) :=
  match inRange layout offset angleAxis polarPointer chartX chartY scale with
  | Option.none => Option.none
  | some rangeObj =>
    match getTooltipData orderedTooltipTicks tooltipTicks tooltipAxis graphicalItems
        chartData dataStartIndex dataEndIndex layout rangeObj with
    | some td => some (chartX, chartY, td)
    | Option.none => Option.none

/-- The tooltip-relevant slice of `CategoricalChartState`. -/
structure ChartState where
  chartX : ℚ
  chartY : ℚ
  dataStartIndex : ℤ
  dataEndIndex : ℤ
  activeTooltipIndex : ℤ
  isTooltipActive : Bool
  activeLabel : DValue
  activeCoordinate : ChartCoordinate
  activePayload : Option (List TooltipItem)
  offset : Option ChartOffset
  tooltipTicks : List TickItem
  orderedTooltipTicks : List TickItem
deriving DecidableEq

/-- From `generateCategoricalChart.tsx` (`createDefaultState`, lines 685–712):
the reset state — brush window from the data length and the brush props, an
inactive tooltip index `-1`, and `isTooltipActive` from `defaultShowTooltip`.
The derived fields (ticks, offset, ...) start empty. -/
def createDefaultState (data : List Entry) (brushItem : Option BrushProps)
    (defaultShowTooltip : Bool) : ChartState :=
  let endIndex0 : ℤ := if data.length ≠ 0 then (data.length : ℤ) - 1 else 0
  let startIndex : ℤ := match brushItem with
    | some b => match b.startIndex with
      | some si => if 0 ≤ si then si else 0
      | Option.none => 0
    | Option.none => 0
  let endIndex : ℤ := match brushItem with
    | some b => match b.endIndex with
      | some ei => if 0 ≤ ei then ei else endIndex0
      | Option.none => endIndex0
    | Option.none => endIndex0
  { chartX := 0, chartY := 0, dataStartIndex := startIndex, dataEndIndex := endIndex,
    activeTooltipIndex := -1, isTooltipActive := defaultShowTooltip,
    activeLabel := .null, activeCoordinate := originCoordinate,
    activePayload := Option.none, offset := Option.none,
    tooltipTicks := [], orderedTooltipTicks := [] }

/-- From `generateCategoricalChart.tsx` (`triggeredAfterMouseMove`, lines
1589–1600): the React `setState` merge of the partial next state — the mouse
info plus an active tooltip on success, just `isTooltipActive: false` on
failure (the other fields keep their previous values). -/
def triggeredAfterMouseMove (prev : ChartState)
    (tooltipAxis : TooltipAxisProps) (graphicalItems : List GraphicalItemProps)
    (chartData : List Entry) (layout : LayoutKind) (offset : ChartOffset)
    (angleAxis : Option SectorDef) (polarPointer : PolarPoint)
    (chartX chartY scale : ℚ) : ChartState :=
  match getMouseInfo prev.orderedTooltipTicks prev.tooltipTicks tooltipAxis graphicalItems
      chartData prev.dataStartIndex prev.dataEndIndex layout offset angleAxis polarPointer
      chartX chartY scale with
  | some (cx, cy, td) =>
    { prev with
      chartX := cx, chartY := cy,
      activeTooltipIndex := td.activeTooltipIndex, activeLabel := td.activeLabel,
      activePayload := td.activePayload, activeCoordinate := td.activeCoordinate,
      isTooltipActive := true }
  | Option.none => { prev with isTooltipActive := false }

/-- The tooltip part of a broadcast sync message. -/
structure SyncTooltipData where
  activeTooltipIndex : ℤ
  activeLabel : DValue
  chartX : ℚ
  chartY : ℚ
  isTooltipActive : Bool
deriving DecidableEq

/-- The `syncMethod` prop: `'index'`, `'value'`, or a custom resolver
function. -/
inductive SyncMethodKind where
  | index
  | value
  | custom (f : List TickItem → SyncTooltipData → ℤ)

/-- JS `typeof syncMethod === 'function'`. -/
def isCustomSyncMethod : SyncMethodKind → Bool
  | .custom _ => true
  | _ => false

/-- The loop body of the `'value'` sync policy scan: the position (counting
from `i`) of the first tick whose value equals the broadcast label. -/
def findIndexByValueGo (activeLabel : DValue) : List TickItem → ℤ → ℤ
  | [], _ => -1
  | t :: ts, i => if t.value = activeLabel then i else findIndexByValueGo activeLabel ts (i + 1)

/-- The `'value'` sync policy scan inside `applySyncEvent` (lines 1777–1784):
the position of the first tooltip tick whose value equals the broadcast
label, `-1` when none matches. -/
def findIndexByValue (tooltipTicks : List TickItem) (activeLabel : DValue) : ℤ :=
  findIndexByValueGo activeLabel tooltipTicks 0

/-- The tooltip-state patch computed by the sync application. -/
structure SyncApplyResult where
  activeTooltipIndex : ℤ
  activeLabel : DValue
  activeCoordinate : ChartCoordinate
  activePayload : Option (List TooltipItem)
  isTooltipActive : Bool
deriving DecidableEq

/-- From `generateCategoricalChart.tsx` (`applySyncEvent`, lines 1772–1785):
the receiver-side index resolution — a custom resolver is called with the
receiver's ticks and the broadcast state, the `'value'` policy scans the
receiver's ticks for the broadcast label, and the default `'index'` policy
adopts the broadcast index as is. -/
def resolveSyncIndex (syncMethod : SyncMethodKind) (tooltipTicks : List TickItem)
    (data : SyncTooltipData) : ℤ :=
  match syncMethod with
  | .custom f => f tooltipTicks data
  | .value => findIndexByValue tooltipTicks data.activeLabel
  | .index => data.activeTooltipIndex

/-- From `generateCategoricalChart.tsx` (`applySyncEvent`, tooltip branch,
lines 1765–1806): resolve the receiver's own active index per sync policy
(`resolveSyncIndex`), clamp the broadcaster's raw pointer coordinates with
`Math.min` against the receiver's `viewBox` far edges, and rebuild label,
payload (the source calls `getTooltipContent` without a label, hence the
`null` label here) and cursor coordinate from the receiver's own ticks and
offset. -/
def applySyncEventTooltip (syncMethod : SyncMethodKind) (layout : LayoutKind)
    (offset : ChartOffset) (tooltipTicks : List TickItem)
    (chartData : List Entry) (graphicalItems : List GraphicalItemProps)
    (tooltipAxis : TooltipAxisProps) (dataStartIndex dataEndIndex : ℤ)
    (data : SyncTooltipData) : SyncApplyResult :=
  let activeTooltipIndex : ℤ := resolveSyncIndex syncMethod tooltipTicks data
  let validateChartX := min data.chartX (offset.left + offset.width)
  let validateChartY := min data.chartY (offset.top + offset.height)
  let tickAt := if 0 ≤ activeTooltipIndex then tooltipTicks.get? activeTooltipIndex.toNat
    else Option.none
  let activeLabel := match tickAt with
    | some t => t.value
    | Option.none => .null
  let activeCoordinate := match tickAt with
    | some t =>
      { x := if layout = .horizontal then t.coordinate else validateChartX,
        y := if layout = .horizontal then validateChartY else t.coordinate }
    | Option.none => originCoordinate
  { activeTooltipIndex := activeTooltipIndex,
    activeLabel := activeLabel,
    activeCoordinate := activeCoordinate,
    activePayload := getTooltipContent chartData graphicalItems tooltipAxis
      dataStartIndex dataEndIndex activeTooltipIndex .null,
    isTooltipActive := data.isTooltipActive }

/-- A broadcast sync message: the partial `CategoricalChartState` sent by the
emitter (absent fields are `none`). -/
structure SyncMessageData where
  dataStartIndex : Option ℤ
  dataEndIndex : Option ℤ
  activeTooltipIndex : Option ℤ
  activeLabel : Option DValue
  chartX : Option ℚ
  chartY : Option ℚ
  isTooltipActive : Option Bool
deriving DecidableEq

/-- The React `setState` merge of a partial message onto the state (present
fields overwrite, absent fields keep the previous value). -/
def ChartState.mergeMessage (st : ChartState) (msg : SyncMessageData) : ChartState :=
  { st with
    dataStartIndex := msg.dataStartIndex.getD st.dataStartIndex,
    dataEndIndex := msg.dataEndIndex.getD st.dataEndIndex,
    activeTooltipIndex := msg.activeTooltipIndex.getD st.activeTooltipIndex,
    activeLabel := msg.activeLabel.getD st.activeLabel,
    chartX := msg.chartX.getD st.chartX,
    chartY := msg.chartY.getD st.chartY,
    isTooltipActive := msg.isTooltipActive.getD st.isTooltipActive }

/-- One chart instance: the props and derived inputs that the sync handlers
and the recompute pipeline read, plus the current state.  `pipelineTicks`
stands for the tooltip ticks produced by `tooltipTicksGenerator`, whose tick
generation (`getTicksOfAxis`, not under `src/`) is taken as an input. -/
structure ChartInstance where
  syncId : Option ℤ
  syncMethod : SyncMethodKind
  eventEmitterSymbol : ℕ
  layout : LayoutKind
  sizeProps : Option SizeProps
  margin : Margin
  xAxes : List XAxisEntry
  yAxes : List YAxisEntry
  brushItem : Option BrushProps
  legendAdjust : Option (OffsetSides → OffsetSides)
  data : List Entry
  graphicalItems : List GraphicalItemProps
  tooltipAxis : TooltipAxisProps
  pipelineTicks : List TickItem
  state : ChartState

/-- Stable insertion of a tick by coordinate (lodash `sortBy`). -/
def insertByCoordinate (t : TickItem) : List TickItem → List TickItem
  | [] => [t]
  | u :: us => if t.coordinate ≤ u.coordinate then t :: u :: us else u :: insertByCoordinate t us

/-- `sortBy(ticks, t => t.coordinate)` of `tooltipTicksGenerator`. -/
def sortByCoordinate (l : List TickItem) : List TickItem :=
  l.foldr insertByCoordinate []

/-- The chart width once `validateWidthHeight` has passed. -/
def widthOf : Option SizeProps → ℚ
  | some p => p.width.getD 0
  | Option.none => 0

/-- The chart height once `validateWidthHeight` has passed. -/
def heightOf : Option SizeProps → ℚ
  | some p => p.height.getD 0
  | Option.none => 0

/-- The recompute pipeline outputs retained by this embedding. -/
structure PipelineUpdate where
  offset : ChartOffset
  tooltipTicks : List TickItem
  orderedTooltipTicks : List TickItem
deriving DecidableEq

/-- From `generateCategoricalChart.tsx`
(`updateStateOfAxisMapsOffsetAndStackGroups`, lines 1040–1100): the whole
recompute pipeline returns `null` unless `validateWidthHeight` accepts the
chart's `width`/`height` props; otherwise it rebuilds the offset (via
`calculateOffset`) and the tooltip ticks.  The axis-map/stack-group stages
whose helpers live outside `src/` are carried by `pipelineTicks`. -/
def updateStateOfAxisMapsOffsetAndStackGroups (chart : ChartInstance)
    (dataStartIndex dataEndIndex : ℤ) : Option PipelineUpdate :=
  if validateWidthHeight chart.sizeProps = false then Option.none
  else
    some { offset := calculateOffset chart.margin chart.xAxes chart.yAxes chart.brushItem
             chart.legendAdjust (widthOf chart.sizeProps) (heightOf chart.sizeProps),
           tooltipTicks := chart.pipelineTicks,
           orderedTooltipTicks := sortByCoordinate chart.pipelineTicks }

/-- From `generateCategoricalChart.tsx` (`applySyncEvent`, brush branch,
lines 1751–1764): adopt the broadcast window and re-run the pipeline (when
only one bound is present the source writes `undefined` into the other; this
embedding keeps the previous value instead — no theorem below relies on that
branch). -/
def applyBrushSync (chart : ChartInstance) (msg : SyncMessageData) : ChartState :=
  let s := msg.dataStartIndex.getD chart.state.dataStartIndex
  let e := msg.dataEndIndex.getD chart.state.dataEndIndex
  let st1 := { chart.state with dataStartIndex := s, dataEndIndex := e }
  match updateStateOfAxisMapsOffsetAndStackGroups chart s e with
  | Option.none => st1
  | some upd =>
    { st1 with
      offset := some upd.offset, tooltipTicks := upd.tooltipTicks,
      orderedTooltipTicks := upd.orderedTooltipTicks }

/-- From `generateCategoricalChart.tsx` (`applySyncEvent`, lines 1746–1810):
dispatch on the message content — brush window, tooltip state (a missing
offset returns unchanged), or a plain state merge. -/
def applySyncEvent (chart : ChartInstance) (msg : SyncMessageData) : ChartInstance :=
  if msg.dataStartIndex.isSome || msg.dataEndIndex.isSome then
    { chart with state := applyBrushSync chart msg }
  else if msg.activeTooltipIndex.isSome then
    match chart.state.offset with
    | Option.none => chart
    | some off =>
      let td : SyncTooltipData :=
        { activeTooltipIndex := msg.activeTooltipIndex.getD (-1),
          activeLabel := msg.activeLabel.getD .null,
          chartX := msg.chartX.getD chart.state.chartX,
          chartY := msg.chartY.getD chart.state.chartY,
          isTooltipActive := msg.isTooltipActive.getD chart.state.isTooltipActive }
      let r := applySyncEventTooltip chart.syncMethod chart.layout off
        chart.state.tooltipTicks chart.data chart.graphicalItems chart.tooltipAxis
        chart.state.dataStartIndex chart.state.dataEndIndex td
      { chart with state :=
        { chart.state.mergeMessage msg with
          activeTooltipIndex := r.activeTooltipIndex,
          activeLabel := r.activeLabel,
          activeCoordinate := r.activeCoordinate,
          activePayload := r.activePayload } }
  else { chart with state := chart.state.mergeMessage msg }

/-- From `generateCategoricalChart.tsx` (`handleReceiveSyncEvent`, lines
1533–1541): a message for another sync id is ignored; a self-emitted message
is ignored unless the sync method is a custom resolver function; everything
else is applied. -/
def handleReceiveSyncEvent (chart : ChartInstance) (cId : ℤ)
    (msg : SyncMessageData) (emitter : ℕ) : ChartInstance :=
  if chart.syncId = some cId then
    if emitter = chart.eventEmitterSymbol ∧ isCustomSyncMethod chart.syncMethod = false then
      chart
    else applySyncEvent chart msg
  else chart

/-- A two-record sample dataset used by the concrete instantiations below. -/
def sampleData : List Entry :=
  [[("x", .str "a"), ("v", .num 1)], [("x", .str "b"), ("v", .num 2)]]

/-- A sample plotted series reading key `v`. -/
def sampleItem : GraphicalItemProps :=
  { data := Option.none, dataKey := .field "v", hide := false, itemKey := "series1" }

/-- Two sample tooltip ticks at pixel coordinates 20 and 80. -/
def sampleTicks : List TickItem :=
  [{ value := .str "a", coordinate := 20, index := 0 },
   { value := .str "b", coordinate := 80, index := 1 }]

/-- A sample plot offset: the rectangle `[10, 110] × [10, 110]`. -/
def sampleOffset : ChartOffset :=
  { top := 10, bottom := 10, left := 10, right := 10, width := 100, height := 100,
    brushBottom := 10 }

/-- A sample chart state holding the sample ticks and offset. -/
def sampleState : ChartState :=
  { chartX := 0, chartY := 0, dataStartIndex := 0, dataEndIndex := 1,
    activeTooltipIndex := -1, isTooltipActive := false, activeLabel := .null,
    activeCoordinate := originCoordinate, activePayload := Option.none,
    offset := some sampleOffset, tooltipTicks := sampleTicks,
    orderedTooltipTicks := sampleTicks }

/-- A sample chart instance with sync id 1 and the `'index'` sync policy. -/
def sampleChart : ChartInstance :=
  { syncId := some 1, syncMethod := .index, eventEmitterSymbol := 7,
    layout := .horizontal, sizeProps := some { width := some 120, height := some 120 },
    margin := { top := 0, bottom := 0, left := 0, right := 0 },
    xAxes := [], yAxes := [], brushItem := Option.none, legendAdjust := Option.none,
    data := sampleData, graphicalItems := [sampleItem],
    tooltipAxis := { dataKey := some (.field "x"), allowDuplicatedCategory := true },
    pipelineTicks := sampleTicks, state := sampleState }

/-- A sample tooltip sync message carrying index 5. -/
def sampleMsg : SyncMessageData :=
  { dataStartIndex := Option.none, dataEndIndex := Option.none,
    activeTooltipIndex := some 5, activeLabel := some (.str "b"),
    chartX := some 500, chartY := some (-50), isTooltipActive := some true }

/-- A single sample tick at coordinate 20. -/
def singleTick : TickItem := { value := .num 0, coordinate := 20, index := 0 }

/-- The tooltip update resolved from `singleTick` at pointer position 30. -/
def sampleUpd : TooltipUpdate :=
  { activeTooltipIndex := 0, activeLabel := .num 0, activePayload := Option.none,
    activeCoordinate := { x := 20, y := 30 } }

/-- A sample broadcast tooltip delta with index 5 (a misaligned peer). -/
def sampleTd5 : SyncTooltipData :=
  { activeTooltipIndex := 5, activeLabel := .str "b", chartX := 500, chartY := -50,
    isTooltipActive := true }

/-- A sample broadcast tooltip delta with index 1 (an aligned peer). -/
def sampleTd1 : SyncTooltipData :=
  { activeTooltipIndex := 1, activeLabel := .str "b", chartX := 500, chartY := -50,
    isTooltipActive := true }

/-- A sample tooltip axis with a data key, allowing duplicated categories. -/
def sampleAxisDup : TooltipAxisProps :=
  { dataKey := some (.field "x"), allowDuplicatedCategory := true }

/-- A sample constant pointer `rangeObj` at 30. -/
def sampleRangeObj : RangeObj :=
  { x := 30, y := 30, angle := 30, radius := 30, cx := 30, cy := 30 }

/-- A sample angular/radial sector: radii `[20, 60]`, angles `[0, 180]`. -/
def sampleSector : SectorDef :=
  { innerRadius := 20, outerRadius := 60, startAngle := 0, endAngle := 180 }

/-- A sample polar pointer outside `sampleSector` (radius 100 > 60). -/
def samplePolarOutside : PolarPoint := { radius := 100, angle := 90 }

/-- The zero polar pointer (unused by cartesian containment). -/
def samplePolarZero : PolarPoint := { radius := 0, angle := 0 }

/-- A sample tooltip axis with a data key, forbidding duplicated
categories. -/
def sampleAxisNoDup : TooltipAxisProps :=
  { dataKey := some (.field "x"), allowDuplicatedCategory := false }

/-- The tooltip item produced for `sampleItem` at the record with
`x = "b"`. -/
def sampleTooltipItem : TooltipItem :=
  { name := "series1", value := .num 2, payload := [("x", .str "b"), ("v", .num 2)] }

theorem isInRange_pair (a b v : ℚ) :
    ScaleHelper.isInRange [a, b] v =
      if a ≤ b then decide (a ≤ v) && decide (v ≤ b)
      else decide (b ≤ v) && decide (v ≤ a) := rfl

/-- C10: for a scale whose pixel range endpoints are `a` and `b` (in either
order), `ScaleHelper.isInRange v` is true iff `min a b ≤ v ≤ max a b`; in
particular the result is unchanged when the range is reversed, so reversed
axes are handled identically to ascending ones. -/
theorem C10_isInRange_minmax_symmetric (a b v : ℚ) :
    (ScaleHelper.isInRange [a, b] v = true ↔ min a b ≤ v ∧ v ≤ max a b) ∧
    ScaleHelper.isInRange [a, b] v = ScaleHelper.isInRange [b, a] v := by
  rw [isInRange_pair, isInRange_pair]
  constructor
  · rcases le_total a b with hab | hab
    · simp [hab, min_eq_left hab, max_eq_right hab]
    · rcases lt_or_eq_of_le hab with hlt | heq
      · simp [not_le.mpr hlt, min_eq_right hab, max_eq_left hab]
      · subst heq
        simp
  · rcases le_total a b with hab | hab
    · rcases lt_or_eq_of_le hab with hlt | heq
      · simp only [if_pos hab, if_neg (not_le.mpr hlt)]
      · subst heq; rfl
    · rcases lt_or_eq_of_le hab with hlt | heq
      · simp only [if_pos hab, if_neg (not_le.mpr hlt)]
      · subst heq; rfl

/-- C1 (amended): for a continuous (numeric) axis that is not the layout's
categorical axis, has no data key and no user-declared `domain` prop, with a
non-empty stack group, stacking offset mode `'expand'`, and no always-visible
reference annotation, the resolved axis domain is exactly `[0, 1]` (the
defaulted `[0, 'auto']` domain merge leaves it unchanged). -/
theorem C1_expand_stack_domain (ado adc sa ih : Bool)
    (displayedData : List Entry) (stackGroups : List StackSeries)
    (s e : ℤ) (errD : Option (List DValue)) (items : List GraphicalItemProps) :
    (resolveAxisDomain
      { type := .number, dataKey := Option.none, allowDataOverflow := ado,
        allowDuplicatedCategory := adc, scaleAuto := sa,
        domainProp := Option.none, includeHidden := ih }
      false displayedData true .expand stackGroups s e [] errD items).domain
      = [.num 0, .num 1] := by
  cases ado <;>
    simp [resolveAxisDomain, isDomainSpecifiedByUser, getDefaultDomainByAxisType,
      postProcessDomain, detectReferenceElementsDomain, parseSpecifiedDomain, numSlot]

/-- C1 fails as literally stated: three concrete continuous (numeric) axes,
each with a non-empty stack group, offset mode `'expand'` and no adopted user
domain, whose resolved domain is not `[0, 1]`: (1) an axis with a data key
takes the data-derived branch; (2) an always-visible reference annotation at
5 extends the domain; (3) a declared-but-not-adopted domain prop
`[-2, 3]` (data overflow disallowed) is merged in after the fact. -/
theorem C1_counterexample :
    (isDomainSpecifiedByUser Option.none false .number = false ∧
      (resolveAxisDomain
        { type := .number, dataKey := some (.field "k"), allowDataOverflow := false,
          allowDuplicatedCategory := false, scaleAuto := true,
          domainProp := Option.none, includeHidden := false }
        false [[("k", .num 5)]] true .expand [[(0, 1)]] 0 0 [] Option.none []).domain
        ≠ [.num 0, .num 1]) ∧
    ((resolveAxisDomain
        { type := .number, dataKey := Option.none, allowDataOverflow := false,
          allowDuplicatedCategory := false, scaleAuto := true,
          domainProp := Option.none, includeHidden := false }
        false [] true .expand [[(0, 1)]] 0 0 [5] Option.none []).domain
        ≠ [.num 0, .num 1]) ∧
    (isDomainSpecifiedByUser (some [.val (.num (-2)), .val (.num 3)]) false .number
        = false ∧
      (resolveAxisDomain
        { type := .number, dataKey := Option.none, allowDataOverflow := false,
          allowDuplicatedCategory := false, scaleAuto := true,
          domainProp := some [.val (.num (-2)), .val (.num 3)], includeHidden := false }
        false [] true .expand [[(0, 1)]] 0 0 [] Option.none []).domain
        ≠ [.num 0, .num 1]) := by
  refine ⟨⟨rfl, ?_⟩, ?_, rfl, ?_⟩ <;> decide

theorem dedupe_foldl_spec (l acc : List DValue) (hacc : acc.Nodup) :
    (List.foldl (fun finalDomain entry =>
        if entry ∈ finalDomain then finalDomain else finalDomain ++ [entry]) acc l).Nodup ∧
    ∀ v, v ∈ List.foldl (fun finalDomain entry =>
        if entry ∈ finalDomain then finalDomain else finalDomain ++ [entry]) acc l ↔
          v ∈ acc ∨ v ∈ l := by
  induction l generalizing acc with
  | nil => simpa using hacc
  | cons x xs ih =>
    simp only [List.foldl_cons]
    by_cases hx : x ∈ acc
    · rw [if_pos hx]
      obtain ⟨h1, h2⟩ := ih acc hacc
      refine ⟨h1, fun v => ?_⟩
      rw [h2 v]
      constructor
      · rintro (h | h)
        · exact Or.inl h
        · exact Or.inr (List.mem_cons_of_mem _ h)
      · rintro (h | h)
        · exact Or.inl h
        · rcases List.mem_cons.mp h with rfl | h
          · exact Or.inl hx
          · exact Or.inr h
    · rw [if_neg hx]
      have hacc2 : (acc ++ [x]).Nodup := by
        simp [List.nodup_append, hacc, hx]
      obtain ⟨h1, h2⟩ := ih (acc ++ [x]) hacc2
      refine ⟨h1, fun v => ?_⟩
      rw [h2 v]
      simp only [List.mem_append, List.mem_singleton, List.mem_cons]
      tauto

theorem dedupeKeepFirst_spec (l : List DValue) :
    (dedupeKeepFirst l).Nodup ∧ ∀ v, v ∈ dedupeKeepFirst l ↔ v ∈ l := by
  have h := dedupe_foldl_spec l [] List.nodup_nil
  unfold dedupeKeepFirst
  refine ⟨h.1, fun v => ?_⟩
  rw [h.2 v]
  simp

/-- C2: for a category-typed axis that is the layout's categorical axis, has
a data key and no declared `domain` prop: when duplicated categories are
allowed and the data-key extraction over the `N` displayed records contains a
duplicate, the resolved domain is the synthetic sequential index range
`[0, N)` and the literally extracted values are retained as the
duplicate-domain; when duplicated categories are disallowed, the resolved
domain is the first-occurrence-ordered de-duplication of the extracted
values (no duplicates, same value set) and no duplicate-domain is kept. -/
theorem C2_category_duplicate_domain (ado sa ih adc : Bool)
    (displayedData : List Entry) (key : DataKey)
    (hasStack : Bool) (stackOffset : StackOffsetKind) (stackGroups : List StackSeries)
    (s e : ℤ) (refValues : List ℚ) (errD : Option (List DValue))
    (items : List GraphicalItemProps) :
    (adc = true → hasDuplicate (extractValues displayedData key) = true →
      (resolveAxisDomain
          { type := .category, dataKey := some key, allowDataOverflow := ado,
            allowDuplicatedCategory := adc, scaleAuto := sa,
            domainProp := Option.none, includeHidden := ih }
          true displayedData hasStack stackOffset stackGroups s e refValues errD
          items).domain = rangeList displayedData.length ∧
      (resolveAxisDomain
          { type := .category, dataKey := some key, allowDataOverflow := ado,
            allowDuplicatedCategory := adc, scaleAuto := sa,
            domainProp := Option.none, includeHidden := ih }
          true displayedData hasStack stackOffset stackGroups s e refValues errD
          items).duplicateDomain = some (extractValues displayedData key)) ∧
    (adc = false →
      (resolveAxisDomain
          { type := .category, dataKey := some key, allowDataOverflow := ado,
            allowDuplicatedCategory := adc, scaleAuto := sa,
            domainProp := Option.none, includeHidden := ih }
          true displayedData hasStack stackOffset stackGroups s e refValues errD
          items).domain = dedupeKeepFirst (extractValues displayedData key) ∧
      (resolveAxisDomain
          { type := .category, dataKey := some key, allowDataOverflow := ado,
            allowDuplicatedCategory := adc, scaleAuto := sa,
            domainProp := Option.none, includeHidden := ih }
          true displayedData hasStack stackOffset stackGroups s e refValues errD
          items).domain.Nodup ∧
      (∀ v, v ∈ (resolveAxisDomain
          { type := .category, dataKey := some key, allowDataOverflow := ado,
            allowDuplicatedCategory := adc, scaleAuto := sa,
            domainProp := Option.none, includeHidden := ih }
          true displayedData hasStack stackOffset stackGroups s e refValues errD
          items).domain ↔ v ∈ extractValues displayedData key) ∧
      (resolveAxisDomain
          { type := .category, dataKey := some key, allowDataOverflow := ado,
            allowDuplicatedCategory := adc, scaleAuto := sa,
            domainProp := Option.none, includeHidden := ih }
          true displayedData hasStack stackOffset stackGroups s e refValues errD
          items).duplicateDomain = Option.none) := by
  constructor
  · rintro rfl hdup
    constructor <;>
      simp [resolveAxisDomain, isDomainSpecifiedByUser, getDefaultDomainByAxisType,
        postProcessDomain, getDomainOfDataByKey, hdup]
  · rintro rfl
    have hres :
        (resolveAxisDomain
          { type := .category, dataKey := some key, allowDataOverflow := ado,
            allowDuplicatedCategory := false, scaleAuto := sa,
            domainProp := Option.none, includeHidden := ih }
          true displayedData hasStack stackOffset stackGroups s e refValues errD
          items).domain = dedupeKeepFirst (extractValues displayedData key) := by
      simp [resolveAxisDomain, isDomainSpecifiedByUser, getDefaultDomainByAxisType,
        postProcessDomain, getDomainOfDataByKey, parseDomainOfCategoryAxis]
    refine ⟨hres, ?_, ?_, ?_⟩
    · rw [hres]; exact (dedupeKeepFirst_spec _).1
    · intro v; rw [hres]; exact (dedupeKeepFirst_spec _).2 v
    · simp [resolveAxisDomain, isDomainSpecifiedByUser, getDefaultDomainByAxisType,
        getDomainOfDataByKey]

/-- C2 witness: the spec's own example — category values `["a","b","a"]`;
with duplicates allowed the resolved domain is `[0,1,2]` and the
duplicate-domain is the literal values; with duplicates disallowed the
resolved domain keeps no duplicate-domain. -/
theorem C2_category_duplicate_domain_witness :
    (resolveAxisDomain
        { type := .category, dataKey := some (.field "x"), allowDataOverflow := false,
          allowDuplicatedCategory := true, scaleAuto := true,
          domainProp := Option.none, includeHidden := false }
        true [[("x", .str "a")], [("x", .str "b")], [("x", .str "a")]]
        false .none [] 0 2 [] Option.none []).domain = rangeList 3 ∧
    (resolveAxisDomain
        { type := .category, dataKey := some (.field "x"), allowDataOverflow := false,
          allowDuplicatedCategory := true, scaleAuto := true,
          domainProp := Option.none, includeHidden := false }
        true [[("x", .str "a")], [("x", .str "b")], [("x", .str "a")]]
        false .none [] 0 2 [] Option.none []).duplicateDomain
      = some [.str "a", .str "b", .str "a"] ∧
    (resolveAxisDomain
        { type := .category, dataKey := some (.field "x"), allowDataOverflow := false,
          allowDuplicatedCategory := false, scaleAuto := true,
          domainProp := Option.none, includeHidden := false }
        true [[("x", .str "a")], [("x", .str "b")], [("x", .str "a")]]
        false .none [] 0 2 [] Option.none []).duplicateDomain = Option.none := by
  have h1 := (C2_category_duplicate_domain false true false true
    [[("x", .str "a")], [("x", .str "b")], [("x", .str "a")]]
    (.field "x") false .none [] 0 2 [] Option.none []).1 rfl (by decide)
  have h2 := (C2_category_duplicate_domain false true false false
    [[("x", .str "a")], [("x", .str "b")], [("x", .str "a")]]
    (.field "x") false .none [] 0 2 [] Option.none []).2 rfl
  refine ⟨h1.1, ?_, h2.2.2.2⟩
  rw [h1.2]
  decide

/-- C6: for all margins, axis maps, brush, legend adjustment and chart size,
the offset record returned by `calculateOffset` has
`width = max (chartWidth - left - right) 0` and
`height = max (chartHeight - top - bottom) 0`; in particular its width and
height are never negative, even when the consumed margins exceed the chart
size. -/
theorem C6_offset_clamped (margin : Margin) (xAxisMap : List XAxisEntry)
    (yAxisMap : List YAxisEntry) (brushItem : Option BrushProps)
    (legendAdjust : Option (OffsetSides → OffsetSides)) (width height : ℚ) :
    (calculateOffset margin xAxisMap yAxisMap brushItem legendAdjust width height).width
      = max (width
          - (calculateOffset margin xAxisMap yAxisMap brushItem legendAdjust width height).left
          - (calculateOffset margin xAxisMap yAxisMap brushItem legendAdjust width height).right)
          0 ∧
    (calculateOffset margin xAxisMap yAxisMap brushItem legendAdjust width height).height
      = max (height
          - (calculateOffset margin xAxisMap yAxisMap brushItem legendAdjust width height).top
          - (calculateOffset margin xAxisMap yAxisMap brushItem legendAdjust width height).bottom)
          0 ∧
    0 ≤ (calculateOffset margin xAxisMap yAxisMap brushItem legendAdjust width height).width ∧
    0 ≤ (calculateOffset margin xAxisMap yAxisMap brushItem legendAdjust width height).height :=
  ⟨rfl, rfl, le_max_right _ _, le_max_right _ _⟩

/-- C5: if a chart's overall `width` or `height` prop is not a number or is
not positive, the whole recompute pipeline short-circuits:
`updateStateOfAxisMapsOffsetAndStackGroups` returns `none` — no axis maps, no
offset, no formatted geometry — and, all functions being total, no exception
is thrown. -/
theorem C5_degenerate_size_short_circuits (chart : ChartInstance) (s e : ℤ)
    (hbad : ∀ w h : ℚ, chart.sizeProps = some { width := some w, height := some h } →
      w ≤ 0 ∨ h ≤ 0) :
    updateStateOfAxisMapsOffsetAndStackGroups chart s e = Option.none := by
  have hv : validateWidthHeight chart.sizeProps = false := by
    cases hsp : chart.sizeProps with
    | none => rfl
    | some p =>
      cases p with
      | mk wOpt hOpt =>
        cases wOpt with
        | none => rfl
        | some w =>
          cases hOpt with
          | none => rfl
          | some h =>
            rcases hbad w h hsp with hb | hb
            · simp [validateWidthHeight, decide_eq_false (not_lt.mpr hb)]
            · simp [validateWidthHeight, decide_eq_false (not_lt.mpr hb)]
  simp [updateStateOfAxisMapsOffsetAndStackGroups, hv]

/-- C5 witness: a chart whose `width`/`height` props are not numbers is
rejected by the pipeline. -/
theorem C5_degenerate_size_short_circuits_witness :
    updateStateOfAxisMapsOffsetAndStackGroups
      { sampleChart with sizeProps := Option.none } 0 1 = Option.none :=
  C5_degenerate_size_short_circuits _ 0 1 (fun _ _ hwh => by simp at hwh)

/-- C7: a chart instance never reacts to a sync message carrying its own
emitter identity unless its sync method is a custom resolver function: for
every self-emitted message received with a non-function `syncMethod`, the
receive handler returns the instance unchanged, whatever the message and the
sync id — structurally preventing infinite sync feedback. -/
theorem C7_self_sync_ignored (chart : ChartInstance) (cId : ℤ) (msg : SyncMessageData)
    (hm : isCustomSyncMethod chart.syncMethod = false) :
    handleReceiveSyncEvent chart cId msg chart.eventEmitterSymbol = chart := by
  unfold handleReceiveSyncEvent
  by_cases h : chart.syncId = some cId
  · rw [if_pos h, if_pos ⟨rfl, hm⟩]
  · rw [if_neg h]

/-- C7 witness: the sample chart (sync policy `'index'`, a non-function)
ignores its own broadcast message even though the message carries a tooltip
index. -/
theorem C7_self_sync_ignored_witness :
    handleReceiveSyncEvent sampleChart 1 sampleMsg sampleChart.eventEmitterSymbol
      = sampleChart :=
  C7_self_sync_ignored sampleChart 1 sampleMsg rfl

theorem foldl_nearest_mem (pos : ℚ) (l : List TickItem) :
    ∀ t : TickItem,
      l.foldl (fun best c =>
        if |c.coordinate - pos| < |best.coordinate - pos| then c else best) t ∈ t :: l := by
  induction l with
  | nil => intro t; simp
  | cons c cs ih =>
    intro t
    simp only [List.foldl_cons]
    by_cases h : |c.coordinate - pos| < |t.coordinate - pos|
    · rw [if_pos h]
      rcases List.mem_cons.mp (ih c) with h2 | h2
      · rw [h2]
        exact List.mem_cons_of_mem _ (List.mem_cons_self _ _)
      · exact List.mem_cons_of_mem _ (List.mem_cons_of_mem _ h2)
    · rw [if_neg h]
      rcases List.mem_cons.mp (ih t) with h2 | h2
      · rw [h2]
        exact List.mem_cons_self _ _
      · exact List.mem_cons_of_mem _ (List.mem_cons_of_mem _ h2)

theorem calculateActiveTickIndex_spec (pos : ℚ) (ticks : List TickItem) :
    calculateActiveTickIndex pos ticks = -1 ∨
    ∃ t ∈ ticks, calculateActiveTickIndex pos ticks = (t.index : ℤ) := by
  cases ticks with
  | nil => exact Or.inl rfl
  | cons t ts =>
    exact Or.inr ⟨nearestTick pos t ts, foldl_nearest_mem pos ts t, rfl⟩

theorem findIndexByValueGo_spec (lab : DValue) (l : List TickItem) :
    ∀ i : ℤ, findIndexByValueGo lab l i = -1 ∨
      (i ≤ findIndexByValueGo lab l i ∧
        findIndexByValueGo lab l i < i + l.length) := by
  induction l with
  | nil => intro i; exact Or.inl rfl
  | cons t ts ih =>
    intro i
    unfold findIndexByValueGo
    by_cases h : t.value = lab
    · rw [if_pos h]
      right
      refine ⟨le_refl i, ?_⟩
      have : (0 : ℤ) < ((t :: ts).length : ℤ) := by
        simp [List.length_cons]
      linarith
    · rw [if_neg h]
      rcases ih (i + 1) with h2 | ⟨h2, h3⟩
      · exact Or.inl h2
      · right
        constructor
        · linarith
        · have hlen : ((t :: ts).length : ℤ) = (ts.length : ℤ) + 1 := by
            simp [List.length_cons]
          linarith

theorem getTooltipData_some_index (ordered ticks : List TickItem)
    (axis : TooltipAxisProps) (items : List GraphicalItemProps)
    (chartData : List Entry) (s e : ℤ) (layout : LayoutKind) (rangeObj : RangeObj)
    (upd : TooltipUpdate)
    (hupd : getTooltipData ordered ticks axis items chartData s e layout rangeObj
      = some upd) :
    0 ≤ upd.activeTooltipIndex ∧
    upd.activeTooltipIndex
      = calculateActiveTickIndex (calculateTooltipPos rangeObj layout) ordered := by
  simp only [getTooltipData] at hupd
  by_cases h0 : 0 ≤ calculateActiveTickIndex (calculateTooltipPos rangeObj layout) ordered
  · rw [if_pos h0] at hupd
    injection hupd with h
    subst h
    exact ⟨h0, rfl⟩
  · rw [if_neg h0] at hupd
    cases hupd

/-- C3 (amended): the active tooltip index is `-1` after default state
creation; after pointer resolution it lies within `[0, N)` whenever every
tooltip tick index is below `N` (in the standard pipeline the categorical
tick count equals the displayed data length, giving
`[0, displayedDataLength)`); a peer sync event under the `'value'` policy
yields `-1` or an index below the receiver's tick count (hence within
`[0, N)` when the tick count is at most `N`); under the `'index'` policy the
broadcast index is adopted unvalidated, so the bound holds only when the
incoming index already satisfies it. -/
theorem C3_active_index_range :
    (∀ (data : List Entry) (brushItem : Option BrushProps) (dst : Bool),
      (createDefaultState data brushItem dst).activeTooltipIndex = -1) ∧
    (∀ (ordered ticks : List TickItem) (axis : TooltipAxisProps)
        (items : List GraphicalItemProps) (chartData : List Entry) (s e : ℤ)
        (layout : LayoutKind) (rangeObj : RangeObj) (N : ℤ) (upd : TooltipUpdate),
      (∀ t ∈ ordered, (t.index : ℤ) < N) →
      getTooltipData ordered ticks axis items chartData s e layout rangeObj = some upd →
      0 ≤ upd.activeTooltipIndex ∧ upd.activeTooltipIndex < N) ∧
    (∀ (layout : LayoutKind) (off : ChartOffset) (ticks : List TickItem)
        (chartData : List Entry) (items : List GraphicalItemProps)
        (axis : TooltipAxisProps) (s e : ℤ) (td : SyncTooltipData) (N : ℤ),
      (ticks.length : ℤ) ≤ N →
      (applySyncEventTooltip .value layout off ticks chartData items axis s e
          td).activeTooltipIndex = -1 ∨
      (0 ≤ (applySyncEventTooltip .value layout off ticks chartData items axis s e
          td).activeTooltipIndex ∧
        (applySyncEventTooltip .value layout off ticks chartData items axis s e
          td).activeTooltipIndex < N)) ∧
    (∀ (layout : LayoutKind) (off : ChartOffset) (ticks : List TickItem)
        (chartData : List Entry) (items : List GraphicalItemProps)
        (axis : TooltipAxisProps) (s e : ℤ) (td : SyncTooltipData) (N : ℤ),
      td.activeTooltipIndex = -1 ∨
        (0 ≤ td.activeTooltipIndex ∧ td.activeTooltipIndex < N) →
      ((applySyncEventTooltip .index layout off ticks chartData items axis s e
          td).activeTooltipIndex = -1 ∨
        (0 ≤ (applySyncEventTooltip .index layout off ticks chartData items axis s e
          td).activeTooltipIndex ∧
          (applySyncEventTooltip .index layout off ticks chartData items axis s e
            td).activeTooltipIndex < N))) := by
  refine ⟨fun data brushItem dst => rfl, ?_, ?_, ?_⟩
  · intro ordered ticks axis items chartData s e layout rangeObj N upd htk hupd
    obtain ⟨hge, heq⟩ := getTooltipData_some_index ordered ticks axis items chartData
      s e layout rangeObj upd hupd
    refine ⟨hge, ?_⟩
    rcases calculateActiveTickIndex_spec (calculateTooltipPos rangeObj layout) ordered with
      hc | ⟨t, ht, hc⟩
    · rw [heq, hc] at hge
      exact absurd hge (by decide)
    · rw [heq, hc]
      exact htk t ht
  · intro layout off ticks chartData items axis s e td N hlen
    have hr : (applySyncEventTooltip .value layout off ticks chartData items axis s e
        td).activeTooltipIndex = findIndexByValueGo td.activeLabel ticks 0 := rfl
    rcases findIndexByValueGo_spec td.activeLabel ticks 0 with h | ⟨h1, h2⟩
    · exact Or.inl (hr.trans h)
    · right
      rw [hr]
      refine ⟨h1, ?_⟩
      have : (0 : ℤ) + (ticks.length : ℤ) ≤ N := by linarith
      linarith
  · intro layout off ticks chartData items axis s e td N hin
    have hr : (applySyncEventTooltip .index layout off ticks chartData items axis s e
        td).activeTooltipIndex = td.activeTooltipIndex := rfl
    rw [hr]
    exact hin

/-- C3 fails as literally stated: under the `'index'` sync policy the
receiver adopts the broadcaster's index unvalidated — a peer broadcast with
index 5 lands in a receiver whose displayed data has only 2 records, leaving
an active tooltip index that is neither `-1` nor within `[0, 2)`. -/
theorem C3_counterexample :
    (applySyncEventTooltip .index .horizontal sampleOffset sampleTicks sampleData
        [sampleItem] sampleAxisDup 0 1 sampleTd5).activeTooltipIndex = 5 ∧
    (getDisplayedData sampleData [sampleItem] 0 1).length = 2 ∧
    ¬((5 : ℤ) = -1 ∨ ((0 : ℤ) ≤ 5 ∧ (5 : ℤ) < 2)) := by
  refine ⟨rfl, by decide, by decide⟩

/-- C3 witness: concrete instantiations of the pointer-resolution bound, the
`'value'` policy bound and the `'index'` policy bound. -/
theorem C3_active_index_range_witness :
    (0 ≤ sampleUpd.activeTooltipIndex ∧ sampleUpd.activeTooltipIndex < 1) ∧
    ((applySyncEventTooltip .value .horizontal sampleOffset sampleTicks sampleData
        [sampleItem] sampleAxisDup 0 1 sampleTd5).activeTooltipIndex = -1 ∨
      (0 ≤ (applySyncEventTooltip .value .horizontal sampleOffset sampleTicks sampleData
          [sampleItem] sampleAxisDup 0 1 sampleTd5).activeTooltipIndex ∧
        (applySyncEventTooltip .value .horizontal sampleOffset sampleTicks sampleData
          [sampleItem] sampleAxisDup 0 1 sampleTd5).activeTooltipIndex < 2)) ∧
    ((applySyncEventTooltip .index .horizontal sampleOffset sampleTicks sampleData
        [sampleItem] sampleAxisDup 0 1 sampleTd1).activeTooltipIndex = -1 ∨
      (0 ≤ (applySyncEventTooltip .index .horizontal sampleOffset sampleTicks sampleData
          [sampleItem] sampleAxisDup 0 1 sampleTd1).activeTooltipIndex ∧
        (applySyncEventTooltip .index .horizontal sampleOffset sampleTicks sampleData
          [sampleItem] sampleAxisDup 0 1 sampleTd1).activeTooltipIndex < 2)) := by
  refine ⟨?_, ?_, ?_⟩
  · exact C3_active_index_range.2.1 [singleTick] [singleTick]
      { dataKey := Option.none, allowDuplicatedCategory := true } [] [[("v", .num 7)]]
      0 0 .horizontal sampleRangeObj 1 sampleUpd (by decide) (by decide)
  · exact C3_active_index_range.2.2.1 .horizontal sampleOffset sampleTicks sampleData
      [sampleItem] sampleAxisDup 0 1 sampleTd5 2 (by decide)
  · exact C3_active_index_range.2.2.2 .horizontal sampleOffset sampleTicks sampleData
      [sampleItem] sampleAxisDup 0 1 sampleTd1 2 (Or.inr (by decide))

/-- C4: a pointer whose (scale-corrected) coordinate lies outside the plot
rectangle (cartesian layouts) or outside the angular/radial sector (polar
layouts) fails point resolution: `inRange` returns `none`, `getMouseInfo`
returns `none`, and the subsequent mouse-move state update sets
`isTooltipActive` to false — an inactive tooltip state; every function
involved is total, so no error is raised. -/
theorem C4_outside_pointer_inactive (ordered ticks : List TickItem)
    (axis : TooltipAxisProps) (items : List GraphicalItemProps)
    (chartData : List Entry) (s e : ℤ) (layout : LayoutKind) (offset : ChartOffset)
    (angleAxis : Option SectorDef) (pp : PolarPoint) (prev : ChartState)
    (x y scale : ℚ) :
    ((layout = .horizontal ∨ layout = .vertical) →
      (x / scale < offset.left ∨ offset.left + offset.width < x / scale ∨
        y / scale < offset.top ∨ offset.top + offset.height < y / scale) →
      inRange layout offset angleAxis pp x y scale = Option.none ∧
      getMouseInfo ordered ticks axis items chartData s e layout offset angleAxis pp
        x y scale = Option.none ∧
      (triggeredAfterMouseMove prev axis items chartData layout offset angleAxis pp
        x y scale).isTooltipActive = false) ∧
    ((layout = .centric ∨ layout = .radial) →
      (∀ sector, angleAxis = some sector →
        pp.radius < sector.innerRadius ∨ sector.outerRadius < pp.radius ∨
        pp.angle < min sector.startAngle sector.endAngle ∨
        max sector.startAngle sector.endAngle < pp.angle) →
      inRange layout offset angleAxis pp x y scale = Option.none ∧
      getMouseInfo ordered ticks axis items chartData s e layout offset angleAxis pp
        x y scale = Option.none ∧
      (triggeredAfterMouseMove prev axis items chartData layout offset angleAxis pp
        x y scale).isTooltipActive = false) := by
  have hmain : inRange layout offset angleAxis pp x y scale = Option.none →
      getMouseInfo ordered ticks axis items chartData s e layout offset angleAxis pp
        x y scale = Option.none ∧
      (triggeredAfterMouseMove prev axis items chartData layout offset angleAxis pp
        x y scale).isTooltipActive = false := by
    intro hin
    constructor
    · simp [getMouseInfo, hin]
    · simp [triggeredAfterMouseMove, getMouseInfo, hin]
  constructor
  · intro hlay hout
    have hc : ¬(offset.left ≤ x / scale ∧ x / scale ≤ offset.left + offset.width ∧
        offset.top ≤ y / scale ∧ y / scale ≤ offset.top + offset.height) := by
      rintro ⟨h1, h2, h3, h4⟩
      rcases hout with h | h | h | h
      · exact absurd h1 (not_le.mpr h)
      · exact absurd h2 (not_le.mpr h)
      · exact absurd h3 (not_le.mpr h)
      · exact absurd h4 (not_le.mpr h)
    have hin : inRange layout offset angleAxis pp x y scale = Option.none := by
      simp only [inRange]
      rw [if_pos hlay, if_neg hc]
    exact ⟨hin, (hmain hin).1, (hmain hin).2⟩
  · intro hlay hout
    have hnc : ¬(layout = .horizontal ∨ layout = .vertical) := by
      rcases hlay with rfl | rfl <;> simp
    have hin : inRange layout offset angleAxis pp x y scale = Option.none := by
      simp only [inRange]
      rw [if_neg hnc]
      cases hax : angleAxis with
      | none => rfl
      | some sector =>
        have hcs : ¬(sector.innerRadius ≤ pp.radius ∧ pp.radius ≤ sector.outerRadius ∧
            min sector.startAngle sector.endAngle ≤ pp.angle ∧
            pp.angle ≤ max sector.startAngle sector.endAngle) := by
          rintro ⟨h1, h2, h3, h4⟩
          rcases hout sector hax with h | h | h | h
          · exact absurd h1 (not_le.mpr h)
          · exact absurd h2 (not_le.mpr h)
          · exact absurd h3 (not_le.mpr h)
          · exact absurd h4 (not_le.mpr h)
        simp only [inRangeOfSector]
        rw [if_neg hcs]
    exact ⟨hin, (hmain hin).1, (hmain hin).2⟩

/-- C4 witness: a pointer at x = 500 right of the sample plot rectangle, and
a polar pointer at radius 100 outside the sample sector; both resolve to no
tooltip. -/
theorem C4_outside_pointer_inactive_witness :
    (inRange .horizontal sampleOffset Option.none samplePolarZero 500 50 1
        = Option.none ∧
      getMouseInfo sampleTicks sampleTicks sampleAxisDup [sampleItem] sampleData 0 1
        .horizontal sampleOffset Option.none samplePolarZero 500 50 1 = Option.none ∧
      (triggeredAfterMouseMove sampleState sampleAxisDup [sampleItem] sampleData
        .horizontal sampleOffset Option.none samplePolarZero 500 50 1).isTooltipActive
        = false) ∧
    (inRange .centric sampleOffset (some sampleSector) samplePolarOutside 50 50 1
        = Option.none ∧
      getMouseInfo sampleTicks sampleTicks sampleAxisDup [sampleItem] sampleData 0 1
        .centric sampleOffset (some sampleSector) samplePolarOutside 50 50 1
        = Option.none ∧
      (triggeredAfterMouseMove sampleState sampleAxisDup [sampleItem] sampleData
        .centric sampleOffset (some sampleSector) samplePolarOutside 50 50 1).isTooltipActive
        = false) := by
  constructor
  · exact (C4_outside_pointer_inactive sampleTicks sampleTicks sampleAxisDup [sampleItem]
      sampleData 0 1 .horizontal sampleOffset Option.none samplePolarZero sampleState
      500 50 1).1 (Or.inl rfl) (Or.inr (Or.inl (by norm_num [sampleOffset])))
  · exact (C4_outside_pointer_inactive sampleTicks sampleTicks sampleAxisDup [sampleItem]
      sampleData 0 1 .centric sampleOffset (some sampleSector) samplePolarOutside
      sampleState 50 50 1).2 (Or.inl rfl)
      (fun sector hs => by
        injection hs with h2
        subst h2
        right; left
        norm_num [sampleSector, samplePolarOutside])

/-- C8 (amended): applying a peer tooltip sync event, the receiver resolves a
tick of its own: the along-axis cursor coordinate is the receiver's own tick
coordinate — independent of the broadcaster's pixel coordinates — and the
payload is rebuilt by the receiver's own `getTooltipContent` over its own
data and window; the broadcaster's raw cross-axis pointer coordinate is
clamped with `Math.min` against the far plot edge only (`top + height` for
horizontal layouts, `left + width` otherwise), so the active coordinate
never exceeds the far edge on that axis but is not clamped at the near
edge. -/
theorem C8_sync_clamp_and_recompute (sm : SyncMethodKind) (layout : LayoutKind)
    (off : ChartOffset) (ticks : List TickItem) (chartData : List Entry)
    (items : List GraphicalItemProps) (axis : TooltipAxisProps) (s e : ℤ)
    (td : SyncTooltipData) (t : TickItem)
    (hge : 0 ≤ resolveSyncIndex sm ticks td)
    (hget : ticks.get? (resolveSyncIndex sm ticks td).toNat = some t) :
    (layout = .horizontal →
      (applySyncEventTooltip sm layout off ticks chartData items axis s e
          td).activeCoordinate
        = { x := t.coordinate, y := min td.chartY (off.top + off.height) } ∧
      (applySyncEventTooltip sm layout off ticks chartData items axis s e
          td).activeCoordinate.y ≤ off.top + off.height) ∧
    (layout ≠ .horizontal →
      (applySyncEventTooltip sm layout off ticks chartData items axis s e
          td).activeCoordinate
        = { x := min td.chartX (off.left + off.width), y := t.coordinate } ∧
      (applySyncEventTooltip sm layout off ticks chartData items axis s e
          td).activeCoordinate.x ≤ off.left + off.width) ∧
    (applySyncEventTooltip sm layout off ticks chartData items axis s e
        td).activePayload
      = getTooltipContent chartData items axis s e (resolveSyncIndex sm ticks td)
          .null := by
  refine ⟨?_, ?_, rfl⟩
  · intro hl
    subst hl
    have hco : (applySyncEventTooltip sm .horizontal off ticks chartData items axis s e
        td).activeCoordinate
        = { x := t.coordinate, y := min td.chartY (off.top + off.height) } := by
      simp only [applySyncEventTooltip]
      rw [if_pos hge, hget]
      simp
    refine ⟨hco, ?_⟩
    rw [hco]
    exact min_le_right _ _
  · intro hnl
    have hco : (applySyncEventTooltip sm layout off ticks chartData items axis s e
        td).activeCoordinate
        = { x := min td.chartX (off.left + off.width), y := t.coordinate } := by
      simp only [applySyncEventTooltip]
      rw [if_pos hge, hget]
      simp [hnl]
    refine ⟨hco, ?_⟩
    rw [hco]
    exact min_le_right _ _

/-- C8 fails as literally stated: `Math.min` clamps only against the far
edge — a broadcast pointer above the receiver's plot (chartY = −50, top
edge 10) produces an active coordinate lying outside the receiver's own
plot rectangle. -/
theorem C8_counterexample :
    (applySyncEventTooltip .index .horizontal sampleOffset sampleTicks sampleData
        [sampleItem] sampleAxisDup 0 1 sampleTd1).activeCoordinate.y = -50 ∧
    (-50 : ℚ) < sampleOffset.top := by
  constructor
  · have h1 : (0 : ℤ) ≤ resolveSyncIndex .index sampleTicks sampleTd1 := by
      simp [resolveSyncIndex, sampleTd1]
    have h2 : sampleTicks.get? (resolveSyncIndex .index sampleTicks sampleTd1).toNat
        = some { value := .str "b", coordinate := 80, index := 1 } := by
      simp [resolveSyncIndex, sampleTd1, sampleTicks]
    simp only [applySyncEventTooltip]
    rw [if_pos h1, h2]
    simp only [sampleTd1, sampleOffset]
    rw [min_eq_left (by norm_num)]
    simp
  · norm_num [sampleOffset]

/-- C8 witness: the sample receiver resolves its own tick at coordinate 80;
the cross-axis coordinate (−50) respects the far-edge bound and the payload
is recomputed by the receiver. -/
theorem C8_sync_clamp_and_recompute_witness :
    (applySyncEventTooltip .index .horizontal sampleOffset sampleTicks sampleData
        [sampleItem] sampleAxisDup 0 1 sampleTd1).activeCoordinate.x = 80 ∧
    (applySyncEventTooltip .index .horizontal sampleOffset sampleTicks sampleData
        [sampleItem] sampleAxisDup 0 1 sampleTd1).activeCoordinate.y
      ≤ sampleOffset.top + sampleOffset.height ∧
    (applySyncEventTooltip .index .horizontal sampleOffset sampleTicks sampleData
        [sampleItem] sampleAxisDup 0 1 sampleTd1).activePayload
      = getTooltipContent sampleData [sampleItem] sampleAxisDup 0 1 1 .null := by
  have h := C8_sync_clamp_and_recompute .index .horizontal sampleOffset sampleTicks
    sampleData [sampleItem] sampleAxisDup 0 1 sampleTd1
    { value := .str "b", coordinate := 80, index := 1 } (by decide) (by decide)
  obtain ⟨hco, hy⟩ := h.1 rfl
  exact ⟨by rw [hco], hy, h.2.2⟩

theorem tooltipReduce_eq_filterMap (f : GraphicalItemProps → Option Entry)
    (l : List GraphicalItemProps) (acc : List TooltipItem) :
    l.foldl (fun result child =>
        match f child with
        | Option.none => result
        | some p => result ++ [getTooltipItem child p]) acc
      = acc ++ l.filterMap (fun child => (f child).map (getTooltipItem child)) := by
  induction l generalizing acc with
  | nil => simp
  | cons c cs ih =>
    simp only [List.foldl_cons, List.filterMap_cons]
    cases hf : f c with
    | none =>
      rw [ih]
      simp [hf]
    | some p =>
      rw [ih]
      simp [hf, List.append_assoc]

/-- C9: for every resolved active index within the displayed data and a
non-empty series list, the tooltip payload builds successfully (never an
error, never a null entry): it is exactly one entry per series whose datum
lookup succeeds — the per-series lookup being an exact category-key match of
the active label when the tooltip axis has a data key and forbids duplicated
categories, and positional indexing otherwise — so a series without a
matching datum is omitted; in the exact-match mode every produced entry's
(possibly computed) key value equals the active label. -/
theorem C9_tooltip_payload (chartData : List Entry) (items : List GraphicalItemProps)
    (axis : TooltipAxisProps) (s e i : ℤ) (lab : DValue)
    (h0 : 0 ≤ i)
    (h1 : i < ((getDisplayedData chartData items s e).length : ℤ))
    (h2 : items.length ≠ 0) :
    getTooltipContent chartData items axis s e i lab
        = some (items.filterMap (fun child =>
            (tooltipPayloadFor chartData (getDisplayedData chartData items s e) axis
              s e i lab child).map (getTooltipItem child))) ∧
    (items.filterMap (fun child =>
        (tooltipPayloadFor chartData (getDisplayedData chartData items s e) axis
          s e i lab child).map (getTooltipItem child))).length ≤ items.length ∧
    (∀ key, axis.dataKey = some key → axis.allowDuplicatedCategory = false →
      ∀ ti ∈ items.filterMap (fun child =>
          (tooltipPayloadFor chartData (getDisplayedData chartData items s e) axis
            s e i lab child).map (getTooltipItem child)),
        applyDataKey key ti.payload = lab) := by
  have hguard : ¬(i < 0 ∨ items.length = 0 ∨
      ((getDisplayedData chartData items s e).length : ℤ) ≤ i) := by
    rintro (h | h | h)
    · exact absurd h (not_lt.mpr h0)
    · exact h2 h
    · exact absurd h (not_le.mpr h1)
  refine ⟨?_, List.length_filterMap_le _ _, ?_⟩
  · simp only [getTooltipContent]
    rw [if_neg hguard]
    have h3 := tooltipReduce_eq_filterMap (fun child => tooltipPayloadFor chartData
      (getDisplayedData chartData items s e) axis s e i lab child) items []
    rw [List.nil_append] at h3
    exact congrArg some h3
  · intro key hkey hdup ti hti
    rw [List.mem_filterMap] at hti
    obtain ⟨child, hchild, hmap⟩ := hti
    cases hp : tooltipPayloadFor chartData (getDisplayedData chartData items s e)
        axis s e i lab child with
    | none => rw [hp] at hmap; cases hmap
    | some p =>
      rw [hp] at hmap
      simp only [Option.map_some'] at hmap
      injection hmap with hmap
      subst hmap
      simp only [tooltipPayloadFor, hkey, hdup, findEntryInArray] at hp
      have hfind := List.find?_some hp
      exact of_decide_eq_true hfind

/-- C9 witness: with a category key and duplicates forbidden, the sample
series produces exactly the entry matching the active label `"b"`, and that
entry's key value is the active label. -/
theorem C9_tooltip_payload_witness :
    getTooltipContent sampleData [sampleItem] sampleAxisNoDup 0 1 1 (.str "b")
      = some [sampleTooltipItem] ∧
    applyDataKey (.field "x") sampleTooltipItem.payload = .str "b" := by
  have h := C9_tooltip_payload sampleData [sampleItem] sampleAxisNoDup 0 1 1 (.str "b")
    (by decide) (by decide) (by decide)
  refine ⟨?_, ?_⟩
  · rw [h.1]
    decide
  · exact h.2.2 (.field "x") rfl rfl sampleTooltipItem (by decide)

end Recharts
